import Mathlib

/-!
Shallow embedding of the capture-request orchestrator of this repository
(`bin/async_capture.py` and `bin/background_processing.py`).

External collaborators (the `defang.refang` library, DNS resolution via
`socket.gethostbyname`, `ipaddress.ip_address(..).is_global`, the
`ParsedUserAgent` helper, the temporary-file name generator and the
playwright backend) are modelled as parameters of an environment record:
the code under `src/` treats each of them as an opaque function/outcome.
Everything else (URL normalisation, the SSRF guard, engine selection,
artifact persistence, the queue consumer's branching, the cleanup pipeline
and the reconciliation loop) is translated line by line from the source.
-/

namespace Lookyloo

/-! ## Python string primitives (modelled on `List Char` for full reducibility) -/

/-- Model of Python `str.startswith` on character lists. -/
def lcStartsWith : List Char → List Char → Bool
  | _, [] => true
  | [], _ :: _ => false
  | c :: cs, p :: ps => c = p && lcStartsWith cs ps

/-- Model of Python `str.startswith`. -/
def strStartsWith (s p : String) : Bool := lcStartsWith s.data p.data

/-- Model of Python `str.lower` (ASCII). -/
def lowerStr (s : String) : String := String.mk (s.data.map Char.toLower)

/-- Model of Python `str.strip()`: drop leading/trailing whitespace. -/
def stripStr (s : String) : String :=
  String.mk (((s.data.dropWhile Char.isWhitespace).reverse.dropWhile Char.isWhitespace).reverse)

/-- Truthiness of an optional Python string/bytes value (`bool(x)` for
`x = d.get(key)`): present and non-empty. -/
def truthyOpt : Option String → Bool
  | none => false
  | some s => s != ""

/-- Model of `value.decode() if to_capture.get(key) else None` (lines 100-108 of
`bin/async_capture.py`): a falsy field is replaced by `None`. -/
def truthyFilter (o : Option String) : Option String :=
  if truthyOpt o then o else none

/-- Model of Python `x if x else d` for an optional string. -/
def pyOr (o : Option String) (d : String) : String :=
  if truthyOpt o then o.getD d else d

/-- Model of `pathlib.Path(s).name`: the final path component (text after the
last `/`). -/
def pathName (s : String) : String :=
  String.mk ((s.data.reverse.takeWhile (fun c => c != '/')).reverse)

/-! ## Model of `urllib.parse.urlsplit`, restricted to the two fields the
source reads: `netloc` and `hostname`. -/

/-- Characters allowed in a URL scheme after the first (`scheme_chars` of
`urllib.parse`). -/
def schemeChar (c : Char) : Bool := c.isAlpha || c.isDigit || c = '+' || c = '-' || c = '.'

/-- Split a character list at the first occurrence of `sep`: returns the part
before and the part after, or `none` when `sep` does not occur. -/
def splitFirst (sep : Char) : List Char → Option (List Char × List Char)
  | [] => none
  | c :: rest =>
    if c = sep then some ([], rest)
    else
      match splitFirst sep rest with
      | some (a, b) => some (c :: a, b)
      | none => none

/-- Strip a leading `scheme:` from a URL when the text before the first colon
is a non-empty valid scheme starting with a letter; returns the remainder
(the scheme text itself is not needed by the source). -/
def splitScheme (l : List Char) : Option (List Char) × List Char :=
  match splitFirst ':' l with
  | some (before, after) =>
    match before with
    | [] => (none, l)
    | c :: cs =>
      if c.isAlpha && cs.all schemeChar then (some ((c :: cs).map Char.toLower), after)
      else (none, l)
  | none => (none, l)

/-- Take characters up to the first `/`, `?` or `#` (the netloc delimiters). -/
def takeUntilDelim : List Char → List Char
  | [] => []
  | c :: rest => if c = '/' || c = '?' || c = '#' then [] else c :: takeUntilDelim rest

/-- The `netloc` of the post-scheme remainder: non-empty only when it starts
with `//`. -/
def splitNetloc (l : List Char) : List Char :=
  match l with
  | '/' :: '/' :: rest => takeUntilDelim rest
  | _ => []

/-- The part of a character list after its last `@` (Python
`netloc.rpartition(chr(64))[2]`); the whole list when there is no `@`. -/
def afterLastAt (l : List Char) : List Char :=
  (l.reverse.takeWhile (fun c => c != '@')).reverse

/-- The `hostname` of a netloc: strip userinfo and port, handle a bracketed
IPv6 literal, lowercase; `none` when empty (as the Python property). -/
def hostnameOfNetloc (netloc : List Char) : Option (List Char) :=
  let hostinfo := afterLastAt netloc
  let host :=
    match splitFirst '[' hostinfo with
    | some (_, bracketed) => bracketed.takeWhile (fun c => c != ']')
    | none => hostinfo.takeWhile (fun c => c != ':')
  match host with
  | [] => none
  | c :: cs => some ((c :: cs).map Char.toLower)

/-- The two components of `urlsplit` the source reads. -/
structure SplitUrl where
  netloc : String
  hostname : Option String
deriving DecidableEq

/-- Build the `SplitUrl` record from a raw netloc character list. -/
def mkSplit (nl : List Char) : SplitUrl :=
  { netloc := String.mk nl, hostname := (hostnameOfNetloc nl).map String.mk }

/-- Model of `urllib.parse.urlsplit`, restricted to `netloc` and `hostname`. -/
def urlsplit (url : String) : SplitUrl :=
  mkSplit (splitNetloc (splitScheme url.data).2)

/-- Model of `hostname.split(chr(46))[-1]`: the text after the last dot (the
whole string when there is no dot). -/
def lastLabelS (s : String) : String :=
  String.mk ((s.data.reverse.takeWhile (fun c => c != '.')).reverse)

/-! ## Capture dispatcher (`AsyncCapture._capture`, lines 129-269) -/

/-- Abstraction of `ipaddress.ip_address(ip)`: the source only reads
`.is_global`. -/
structure IPAddr where
  is_global : Bool
deriving DecidableEq

/-- The artifact bundle returned by `capture.capture_page`, restricted to the
keys the source reads. `some ""` models a key present with a falsy value,
`none` a missing key (the source distinguishes both for `har` and `error`). -/
structure Bundle where
  har : Option String := none
  png : Option String := none
  html : Option String := none
  last_redirected_url : Option String := none
  cookies : Option String := none
  downloaded_filename : Option String := none
  downloaded_file : Option String := none
  error : Option String := none
deriving DecidableEq

/-- Python truthiness of the bundle dict: `not entries` holds iff no key is
present. -/
def Bundle.isEmpty (b : Bundle) : Bool :=
  b.har.isNone && b.png.isNone && b.html.isNone && b.last_redirected_url.isNone &&
  b.cookies.isNone && b.downloaded_filename.isNone && b.downloaded_file.isNone &&
  b.error.isNone

/-- Outcome of the `async with Capture(...)` block: the backend either raises
`PlaywrightCaptureException` (`pcexc`), raises any other exception (`exc`), or
returns an artifact bundle. -/
inductive BackendResult where
  | pcexc
  | exc
  | ok (entries : Bundle)
deriving DecidableEq

/-- Configuration and external collaborators of `AsyncCapture`. -/
structure Env where
  /-- `get_config(generic, only_global_lookups)`. -/
  only_global_lookups : Bool
  /-- `get_config(generic, tor_proxy)`. -/
  tor_proxy : String
  /-- `self.user_agents.default` useragent value. -/
  default_useragent : String
  /-- The third-party `defang.refang` function. -/
  refang : String → String
  /-- `ParsedUserAgent(ua).browser` (`none` models a falsy attribute). -/
  parse_browser : String → Option String
  /-- `socket.gethostbyname` followed by `ipaddress.ip_address`: `none`
  models `socket.gaierror`. -/
  resolve : String → Option IPAddr
  /-- Behaviour of the playwright backend for this dispatch. -/
  backend : BackendResult

/-- The keyword arguments of `AsyncCapture._capture`. The `headers` dict and
`viewport` are accepted by the source but only copied onto the backend
session; no claim depends on them and they are not modelled. -/
structure CaptureParams where
  perma_uuid : String
  cookies_pseudofile : Option String := none
  listing : Bool := true
  user_agent : Option String := none
  referer : Option String := none
  proxy : Option String := none
  os : Option String := none
  browser : Option String := none
  parent : Option String := none
  browser_engine : Option String := none
  device_name : Option String := none
deriving DecidableEq

/-- Names of the fixed files written into the capture directory. -/
inductive ArtifactFile where
  | meta
  | uuid
  | no_index
  | parent
  | data_filename
  | data
  | error_txt
  | har
  | png
  | html
  | last_redirect
  | cookies
deriving DecidableEq

/-- Observable actions of one `_capture` run, in program order. -/
inductive Event where
  /-- `socket.gethostbyname(hostname)` was invoked. -/
  | resolveHost (host : String)
  /-- `Capture(browser=engine, device_name=.., proxy=proxy)` session entered. -/
  | openSession (engine : String) (proxy : Option String)
  /-- A file of the capture directory was written/touched. -/
  | writeFile (f : ArtifactFile)
  /-- `hset(lookup_dirs, perma_uuid, dirpath)`. -/
  | registerLookup
deriving DecidableEq

/-- URL normalisation, lines 140-143: strip, refang, then prefix `http://`
when the result starts with none of the literal strings `data`, `http`,
`file`. -/
def normalizeUrl (env : Env) (url0 : String) : String :=
  let u := env.refang (stripStr url0)
  if !strStartsWith u "data" && !strStartsWith u "http" && !strStartsWith u "file" then
    "http://" ++ u
  else u

/-- The SSRF guard, lines 145-158. Returns `some message` on denial and the
resolution events performed. -/
def ssrfGuard (env : Env) (url : String) (su : SplitUrl) : Option String × List Event :=
  if env.only_global_lookups then
    if strStartsWith url "data" || strStartsWith url "file" then (none, [])
    else if su.netloc = "" then (some "Unable to find hostname or IP in the query.", [])
    else
      match su.hostname with
      | some h =>
        if lastLabelS h = "onion" then (none, [])
        else
          match env.resolve h with
          | none => (some "Name or service not known.", [Event.resolveHost h])
          | some ip =>
            if ip.is_global then (none, [Event.resolveHost h])
            else (some "Capturing ressources on private IPs is disabled.", [Event.resolveHost h])
      | none => (none, [])
  else (none, [])

/-- Engine selection when no explicit engine was given, lines 170-180. -/
def pickEngine (parse_browser : String → Option String) (ua : String) : String :=
  match parse_browser ua with
  | none => "webkit"
  | some b =>
    if b = "" then "webkit"
    else if strStartsWith (lowerStr b) "chrom" then "chromium"
    else if strStartsWith (lowerStr b) "firefox" then "firefox"
    else "webkit"

/-- Artifact persistence and result computation after a non-empty bundle was
returned, lines 209-269. Note the faithful modelling of line 248: when the
bundle has no `har` key, the source evaluates `entries[chr(101+0)...]` —
i.e. `entries` indexed at `error` — which raises `KeyError` when the `error`
key is absent; that exception is outside the `try` block and escapes
`_capture`. -/
def persistAndFinish (p : CaptureParams) (entries : Bundle) :
    Except String (Bool × String) × List Event :=
  let evs1 : List Event :=
    (if truthyOpt p.os || truthyOpt p.browser then [Event.writeFile ArtifactFile.meta] else [])
    ++ [Event.writeFile ArtifactFile.uuid]
    ++ (if p.listing then [] else [Event.writeFile ArtifactFile.no_index])
    ++ (if truthyOpt p.parent then [Event.writeFile ArtifactFile.parent] else [])
    ++ (if truthyOpt entries.downloaded_filename then [Event.writeFile ArtifactFile.data_filename] else [])
    ++ (if truthyOpt entries.downloaded_file then [Event.writeFile ArtifactFile.data] else [])
    ++ (if entries.error.isSome then [Event.writeFile ArtifactFile.error_txt] else [])
  match entries.har with
  | none =>
    match entries.error with
    | none => (Except.error "KeyError", evs1)
    | some errval => (Except.ok (false, if errval = "" then "Unknown error" else errval), evs1)
  | some _ =>
    (Except.ok (true, "All good!"),
      evs1 ++ [Event.writeFile ArtifactFile.har]
      ++ (if truthyOpt entries.png then [Event.writeFile ArtifactFile.png] else [])
      ++ (if truthyOpt entries.html then [Event.writeFile ArtifactFile.html] else [])
      ++ (if truthyOpt entries.last_redirected_url then [Event.writeFile ArtifactFile.last_redirect] else [])
      ++ (if truthyOpt entries.cookies then [Event.writeFile ArtifactFile.cookies] else [])
      ++ [Event.registerLookup])

/-- `AsyncCapture._capture`: returns the `(success, message)` pair (or the
name of an escaping exception) together with the trace of observable
actions. -/
def pyCapture (env : Env) (p : CaptureParams) (url0 : String) :
    Except String (Bool × String) × List Event :=
  let url := normalizeUrl env url0
  let su := urlsplit url
  match ssrfGuard env url su with
  | (some msg, evs) => (Except.ok (false, msg), evs)
  | (none, evs) =>
    let proxy1 : Option String :=
      if !truthyOpt p.proxy && su.netloc != "" &&
          (match su.hostname with
           | some h => lastLabelS h = "onion"
           | none => false) then
        some env.tor_proxy
      else p.proxy
    let capture_ua := pyOr p.user_agent env.default_useragent
    let engine :=
      if truthyOpt p.browser_engine then p.browser_engine.getD ""
      else pickEngine env.parse_browser capture_ua
    let evs2 := evs ++ [Event.openSession engine proxy1]
    match env.backend with
    | BackendResult.pcexc =>
      (Except.ok (false, "Invalid parameters for the capture of {url} - {e}"), evs2)
    | BackendResult.exc =>
      (Except.ok (false, "Something went terribly wrong when capturing " ++ url ++ "."), evs2)
    | BackendResult.ok entries =>
      if entries.isEmpty then
        (Except.ok (false, "Something went terribly wrong when capturing " ++ url ++ "."), evs2)
      else
        let pf := persistAndFinish p entries
        (pf.1, evs2 ++ pf.2)

/-- Whether the trace contains a name-resolution event. -/
def didResolve (l : List Event) : Bool :=
  l.any fun e =>
    match e with
    | Event.resolveHost _ => true
    | _ => false

/-- Whether the trace contains a backend-session event. -/
def hasSession (l : List Event) : Bool :=
  l.any fun e =>
    match e with
    | Event.openSession _ _ => true
    | _ => false

/-- The proxy handed to the first backend session of the trace, if a session
was opened. -/
def sessionProxy : List Event → Option (Option String)
  | [] => none
  | Event.openSession _ pr :: _ => some pr
  | _ :: rest => sessionProxy rest

/-! ## Queue bookkeeping store and the cleanup pipeline (lines 120-127) -/

/-- The slice of the shared store the cleanup pipeline touches. -/
structure Store where
  /-- Scores of the `queues` sorted set (`none` = member absent). -/
  queues : String → Option Int
  /-- The `ongoing` set. -/
  ongoing : List String
  /-- UUIDs whose job hash still exists. -/
  records : List String
  /-- Pending expiry on the `queues` key, in seconds. -/
  queuesExpiry : Option Nat

/-- Truthiness of `await self.redis.zscore(queues, queue)`: member present
with a non-zero score. -/
def zscoreTruthy (s : Store) (q : String) : Bool :=
  match s.queues q with
  | some v => v != 0
  | none => false

/-- `zincrby` on the modelled sorted set. -/
def zincrby (f : String → Option Int) (d : Int) (q : String) : String → Option Int :=
  fun q1 => if q1 = q then some (d + (f q1).getD 0) else f q1

/-- The `lazy_cleanup` pipeline of `process_capture_queue`: guarded bucket
decrement, removal from `ongoing`, deletion of the job record, refresh of the
600-second expiry on `queues`. -/
def lazyCleanup (s : Store) (uuid : String) (queue : Option String) : Store :=
  let s1 :=
    match queue with
    | some q =>
      if q != "" && zscoreTruthy s q then { s with queues := zincrby s.queues (-1) q }
      else s
    | none => s
  { s1 with
    ongoing := s1.ongoing.filter (fun x => x != uuid),
    records := s1.records.filter (fun x => x != uuid),
    queuesExpiry := some 600 }

/-! ## Queue consumer (`AsyncCapture.process_capture_queue`, lines 47-127) -/

/-- The decoded job hash (`hgetall(uuid)`), restricted to the fields the
source reads. `some ""` models a present-but-empty value. The free-text
`headers`/`dnt` fields only feed the backend session headers and are not
modelled (no claim depends on them). -/
structure JobRecord where
  url : Option String := none
  document : Option String := none
  document_name : Option String := none
  listing : Option String := none
  cookies : Option String := none
  user_agent : Option String := none
  referer : Option String := none
  proxy : Option String := none
  os : Option String := none
  browser : Option String := none
  browser_engine : Option String := none
  device_name : Option String := none
  parent : Option String := none
deriving DecidableEq

/-- Membership test `value.lower() in [b'false', b'0', b'']` of line 61. -/
def listingFalsy (v : String) : Bool :=
  lowerStr v = "false" || lowerStr v = "0" || lowerStr v = ""

/-- Membership test `value.lower() in [b'true', b'1']` of line 64. -/
def listingTruthy (v : String) : Bool :=
  lowerStr v = "true" || lowerStr v = "1"

/-- Listing flag under the `default_public` policy, line 61. -/
def listedPublicDefault (l : Option String) : Bool :=
  match l with
  | some v => if listingFalsy v then false else true
  | none => true

/-- Listing flag under the private-by-default policy, line 64. -/
def listedPrivateDefault (l : Option String) : Bool :=
  match l with
  | some v => if listingTruthy v then true else false
  | none => false

/-- The listing flag computed by `process_capture_queue`, lines 59-64. -/
def computeListing (default_public : Bool) (l : Option String) : Bool :=
  if default_public then listedPublicDefault l else listedPrivateDefault l

/-- Observable outcome of processing one claimed job. -/
structure ProcOutcome where
  /-- Name of an exception escaping `process_capture_queue`, if any. -/
  raised : Option String
  /-- The URL handed to `_capture`, when the dispatcher was invoked. -/
  dispatchedUrl : Option String
  /-- The URL handed to `thirdparty_submit`, when the hook was invoked. -/
  thirdpartyUrl : Option String
  /-- The `Invalid capture (no URL provided)` warning was logged. -/
  warnedNoTarget : Bool
  /-- Value stored by `setex(error_..uuid, 36000, ..)`, if set. -/
  errorEntry : Option String
  /-- Result of the `_capture` call (exception name or returned pair). -/
  captureResult : Option (Except String (Bool × String))
  /-- Trace of the `_capture` call. -/
  captureTrace : List Event
  /-- The temporary document file was unlinked. -/
  tmpUnlinked : Bool
  /-- The `lazy_cleanup` pipeline ran. -/
  cleanupRan : Bool
  /-- Store after the run. -/
  finalStore : Store

/-- The `_capture` keyword arguments built from the job record, lines
95-109: every optional field except `cookies` is passed through the
truthiness filter. -/
def mkParams (uuid : String) (default_public : Bool) (r : JobRecord) : CaptureParams :=
  { perma_uuid := uuid,
    cookies_pseudofile := r.cookies,
    listing := computeListing default_public r.listing,
    user_agent := truthyFilter r.user_agent,
    referer := truthyFilter r.referer,
    proxy := truthyFilter r.proxy,
    os := truthyFilter r.os,
    browser := truthyFilter r.browser,
    browser_engine := truthyFilter r.browser_engine,
    device_name := truthyFilter r.device_name,
    parent := truthyFilter r.parent }

/-- Consumer bookkeeping after the `_capture` call, lines 111-127: unlink
the temp file, record the error entry on failure, run cleanup. An exception
escaping `_capture` skips all of that (there is no `try` around the call). -/
def dispatchOutcome (uuid : String) (queue : Option String) (s : Store) (url : String)
    (thirdparty : Option String) (isDoc : Bool)
    (res : Except String (Bool × String) × List Event) : ProcOutcome :=
  match res with
  | (Except.error e, tr) =>
    { raised := some e, dispatchedUrl := some url, thirdpartyUrl := thirdparty,
      warnedNoTarget := false, errorEntry := none,
      captureResult := some (Except.error e), captureTrace := tr,
      tmpUnlinked := false, cleanupRan := false, finalStore := s }
  | (Except.ok (success, msg), tr) =>
    { raised := none, dispatchedUrl := some url, thirdpartyUrl := thirdparty,
      warnedNoTarget := false,
      errorEntry := if success then none else some (msg ++ " - " ++ url ++ " - " ++ uuid),
      captureResult := some (Except.ok (success, msg)), captureTrace := tr,
      tmpUnlinked := isDoc, cleanupRan := true, finalStore := lazyCleanup s uuid queue }

/-- Dispatch half of `process_capture_queue` (lines 93-127). -/
def runDispatch (env : Env) (default_public : Bool) (uuid : String) (queue : Option String)
    (r : JobRecord) (s : Store) (url : String) (thirdparty : Option String) (isDoc : Bool) :
    ProcOutcome :=
  dispatchOutcome uuid queue s url thirdparty isDoc
    (pyCapture env (mkParams uuid default_public r) url)

/-- `AsyncCapture.process_capture_queue` after the job has been claimed
(lines 57-127): target selection (inline document wins over URL; neither is
a logged warning with no dispatch), dispatch and cleanup. `tmpPath suffix`
models `NamedTemporaryFile(suffix=..).name`. A record with a truthy
`document` but no `document_name` raises `KeyError` at line 81. -/
def processClaimedJob (env : Env) (default_public : Bool) (tmpPath : String → String)
    (uuid : String) (queue : Option String) (r : JobRecord) (s : Store) : ProcOutcome :=
  if truthyOpt r.document then
    match r.document_name with
    | none =>
      { raised := some "KeyError", dispatchedUrl := none, thirdpartyUrl := none,
        warnedNoTarget := false, errorEntry := none, captureResult := none,
        captureTrace := [], tmpUnlinked := false, cleanupRan := false, finalStore := s }
    | some dn =>
      runDispatch env default_public uuid queue r s
        ("file://" ++ tmpPath (pathName dn)) none true
  else if truthyOpt r.url then
    runDispatch env default_public uuid queue r s
      (r.url.getD "") (some (r.url.getD "")) false
  else
    { raised := none, dispatchedUrl := none, thirdpartyUrl := none,
      warnedNoTarget := true, errorEntry := none, captureResult := none,
      captureTrace := [], tmpUnlinked := false, cleanupRan := true,
      finalStore := lazyCleanup s uuid queue }

/-! ## Reconciliation loop (`Processing._retry_failed_enqueue`, lines 78-135
of `bin/background_processing.py`), modelled for a single pending UUID. -/

/-- External collaborators of one reconciliation pass over one UUID. -/
structure ReconEnv where
  /-- `hexists(uuid, not_queued)`. -/
  notQueuedFlag : Bool
  /-- Whether the n-th `get_capture_status` call (0-based) returns UNKNOWN. -/
  unknownAt : Nat → Bool
  /-- The stored job parameters (`hgetall(uuid)`). -/
  record : JobRecord
  /-- `lacus.enqueue` outcome: `none` models an exception, `some nu` the
  UUID returned by the backend. -/
  enqueueResult : Option String

/-- Result of the bounded status probe. -/
structure ProbeOut where
  calls : Nat
  sleeps : List Nat
  stillUnknown : Bool
deriving DecidableEq

/-- The `while retry > 0` loop of lines 88-95: query the status at call
index `i`; break when known; otherwise decrement the budget and sleep 3. -/
def probe (u : Nat → Bool) (i : Nat) : Nat → ProbeOut
  | 0 => { calls := 0, sleeps := [], stillUnknown := true }
  | Nat.succ r =>
    if u i then
      let rest := probe u (i + 1) r
      { calls := rest.calls + 1, sleeps := 3 :: rest.sleeps, stillUnknown := rest.stillUnknown }
    else { calls := 1, sleeps := [], stillUnknown := false }

/-- Observable outcome of one reconciliation pass over one UUID. -/
structure ReconOutcome where
  /-- Total `get_capture_status` calls (initial check included). -/
  statusCalls : Nat
  /-- `time.sleep` durations, in order. -/
  sleeps : List Nat
  /-- `lacus.enqueue` invocation: the stored record and the `uuid=` argument. -/
  enqueueCall : Option (JobRecord × String)
  /-- The enqueue call raised (the scan then stops for this cycle). -/
  enqueueRaised : Bool
  /-- `hdel(uuid, not_queued)` ran. -/
  flagCleared : Bool
  /-- The duplicate-UUID warning was logged. -/
  warnedDifferentUuid : Bool
deriving DecidableEq

/-- `Processing._retry_failed_enqueue` restricted to one pending UUID. -/
def retryFailedEnqueueOne (e : ReconEnv) (uuid : String) : ReconOutcome :=
  let resubmit := fun (calls : Nat) (sleeps : List Nat) =>
    match e.enqueueResult with
    | none =>
      { statusCalls := calls, sleeps := sleeps, enqueueCall := some (e.record, uuid),
        enqueueRaised := true, flagCleared := false, warnedDifferentUuid := false : ReconOutcome }
    | some nu =>
      { statusCalls := calls, sleeps := sleeps, enqueueCall := some (e.record, uuid),
        enqueueRaised := false, flagCleared := true, warnedDifferentUuid := nu != uuid }
  if e.notQueuedFlag then resubmit 0 []
  else if e.unknownAt 0 then
    let pr := probe e.unknownAt 1 3
    if pr.stillUnknown then resubmit (1 + pr.calls) pr.sleeps
    else
      { statusCalls := 1 + pr.calls, sleeps := pr.sleeps, enqueueCall := none,
        enqueueRaised := false, flagCleared := false, warnedDifferentUuid := false }
  else
    { statusCalls := 1, sleeps := [], enqueueCall := none, enqueueRaised := false,
      flagCleared := false, warnedDifferentUuid := false }

/-! ## Claim-side comparison definitions (written from the claim wording, to
be compared with the definitions above that are translated from the source) -/

/-- The unlisted condition exactly as claim C7 words it: under the public
policy, a `listing` field present with case-insensitive value `false`, `0` or
empty; under the private policy, the field absent or its case-insensitive
value neither `true` nor `1`. -/
def unlistedPerClaim (default_public : Bool) (l : Option String) : Bool :=
  if default_public then
    match l with
    | some v => listingFalsy v
    | none => false
  else
    match l with
    | some v => !listingTruthy v
    | none => true

/-- Whether a URL string carries a recognised scheme in the `urlsplit`
sense (used to express the scope of claims C4 and C8). -/
def hasUrlScheme (u : String) : Bool := ((splitScheme u.data).1).isSome

/-! ## Concrete fixtures for witnesses and counterexamples -/

/-- A bundle holding only a HAR document (a successful render). -/
def bundleHarOnly : Bundle := { har := some "har-content" }

/-- A non-empty bundle with neither a `har` key nor an `error` key. -/
def bundlePngOnly : Bundle := { png := some "png-bytes" }

/-- A bundle carrying a downloaded file (with its name and an error text)
but no HAR. -/
def bundleDownloadNoHar : Bundle :=
  { downloaded_filename := some "f.bin", downloaded_file := some "bytes",
    error := some "no rendering" }

/-- A globally routable resolved address. -/
def ipGlobal : IPAddr := { is_global := true }

/-- A private/loopback/link-local resolved address. -/
def ipPrivate : IPAddr := { is_global := false }

/-- Baseline concrete environment: no global-lookup restriction, identity
refang, Chrome-reporting user-agent parser, global DNS answers, a backend
returning a HAR-only bundle. -/
def envBase : Env :=
  { only_global_lookups := false,
    tor_proxy := "socks5://127.0.0.1:9050",
    default_useragent := "Mozilla/5.0 TestUA Chrome/119",
    refang := id,
    parse_browser := fun _ => some "Chrome",
    resolve := fun _ => some ipGlobal,
    backend := BackendResult.ok bundleHarOnly }

/-- Environment with the global-lookup restriction enabled. -/
def envGuard : Env := { envBase with only_global_lookups := true }

/-- Restricted environment whose DNS resolution always fails. -/
def envNoDns : Env := { envGuard with resolve := fun _ => none }

/-- Restricted environment resolving every host to a private address. -/
def envPrivate : Env := { envGuard with resolve := fun _ => some ipPrivate }

/-- Environment whose backend returns a non-empty bundle with neither `har`
nor `error` keys. -/
def envBug : Env := { envBase with backend := BackendResult.ok bundlePngOnly }

/-- Environment whose backend returns a downloaded file but no HAR. -/
def envDl : Env := { envBase with backend := BackendResult.ok bundleDownloadNoHar }

/-- Restricted environment with failing DNS, used for the onion exemption:
resolution would fail were it ever attempted. -/
def envOnion : Env := { envGuard with resolve := fun _ => none }

/-- A concrete temporary-file name generator. -/
def tmpPathId : String → String := fun sfx => "/tmp/tmpw12xyz" ++ sfx

/-- A job record with no fields at all. -/
def emptyRecord : JobRecord := {}

/-- A job record carrying both an inline document (with a name) and a URL. -/
def docRecord : JobRecord :=
  { url := some "http://example.com", document := some "payload-bytes",
    document_name := some "page.html" }

/-- A job record with a URL and `listing=false`. -/
def listingFalseRecord : JobRecord :=
  { url := some "http://example.com", listing := some "false" }

/-- A store in which bucket `q1` has two in-flight jobs. -/
def storeA : Store :=
  { queues := fun q => if q = "q1" then some 2 else none,
    ongoing := ["u1"], records := ["u1"], queuesExpiry := none }

/-- A reconciliation environment whose backend never learns the UUID and
whose enqueue succeeds with the same UUID. -/
def reconAllUnknown : ReconEnv :=
  { notQueuedFlag := false, unknownAt := fun _ => true, record := {},
    enqueueResult := some "u1" }

/-! ## Helper lemmas -/

theorem mem_ite_singleton {α : Type _} (x y : α) (c : Prop) [Decidable c] :
    (x ∈ (if c then [y] else ([] : List α))) ↔ (c ∧ x = y) := by
  split
  case isTrue h => simp [h]
  case isFalse h => simp [h]

theorem mem_ite_nil_singleton {α : Type _} (x y : α) (c : Prop) [Decidable c] :
    (x ∈ (if c then ([] : List α) else [y])) ↔ (¬c ∧ x = y) := by
  split
  case isTrue h => simp [h]
  case isFalse h => simp [h]

/-- A `SplitUrl` with a hostname has a non-empty netloc. -/
theorem mkSplit_netloc_ne (nl : List Char) (h : String)
    (hh : (mkSplit nl).hostname = some h) : (mkSplit nl).netloc ≠ "" := by
  cases nl with
  | nil => simp [mkSplit, hostnameOfNetloc, afterLastAt, splitFirst] at hh
  | cons c cs =>
    intro hEq
    have h2 : c :: cs = ([] : List Char) := congrArg String.data hEq
    exact List.cons_ne_nil c cs h2

/-- Same statement routed through `urlsplit`. -/
theorem urlsplit_netloc_ne (u : String) (h : String)
    (hh : (urlsplit u).hostname = some h) : (urlsplit u).netloc ≠ "" :=
  mkSplit_netloc_ne _ h hh

/-- The SSRF guard only ever emits name-resolution events. -/
theorem ssrfGuard_events (env : Env) (url : String) (su : SplitUrl) :
    (ssrfGuard env url su).2 = [] ∨
      ∃ h, (ssrfGuard env url su).2 = [Event.resolveHost h] := by
  unfold ssrfGuard
  repeat' split
  all_goals simp

/-- A bundle with a HAR persists successfully. -/
theorem persist_success (p : CaptureParams) (entries : Bundle) (v : String)
    (h : entries.har = some v) :
    (persistAndFinish p entries).1 = Except.ok (true, "All good!") := by
  simp [persistAndFinish, h]

/-- A bundle without a HAR never persists successfully. -/
theorem persist_no_har (p : CaptureParams) (entries : Bundle)
    (h : entries.har = none) (m : String) :
    (persistAndFinish p entries).1 ≠ Except.ok (true, m) := by
  cases he : entries.error <;> simp [persistAndFinish, h, he]

/-- The persistence trace contains the `no_index` marker iff the job is
unlisted. -/
theorem persist_noindex (p : CaptureParams) (entries : Bundle) :
    (Event.writeFile ArtifactFile.no_index ∈ (persistAndFinish p entries).2)
      ↔ p.listing = false := by
  cases hh : entries.har with
  | none =>
    cases he : entries.error <;>
      simp [persistAndFinish, hh, he, List.mem_append, mem_ite_singleton,
        mem_ite_nil_singleton]
  | some v =>
    simp [persistAndFinish, hh, List.mem_append, mem_ite_singleton,
      mem_ite_nil_singleton]

/-- Fields of `dispatchOutcome` that do not depend on the capture result. -/
theorem dispatchOutcome_fields (uuid : String) (queue : Option String) (s : Store)
    (url : String) (tp : Option String) (isDoc : Bool)
    (res : Except String (Bool × String) × List Event) :
    (dispatchOutcome uuid queue s url tp isDoc res).dispatchedUrl = some url ∧
    (dispatchOutcome uuid queue s url tp isDoc res).thirdpartyUrl = tp ∧
    (dispatchOutcome uuid queue s url tp isDoc res).captureTrace = res.2 ∧
    (dispatchOutcome uuid queue s url tp isDoc res).captureResult = some res.1 := by
  rcases res with ⟨r1, tr⟩
  cases r1 with
  | error e => exact ⟨rfl, rfl, rfl, rfl⟩
  | ok pr =>
    rcases pr with ⟨b, m⟩
    exact ⟨rfl, rfl, rfl, rfl⟩

/-- The persistence trace performs no name resolution. -/
theorem persist_no_resolve (p : CaptureParams) (entries : Bundle) :
    didResolve (persistAndFinish p entries).2 = false := by
  cases hh : entries.har with
  | none =>
    cases he : entries.error <;>
      · unfold persistAndFinish didResolve
        simp [hh, he, List.any_append]
  | some v =>
    unfold persistAndFinish didResolve
    simp [hh, List.any_append]

/-! ## Claim C1 -/

/-- Claim C1, counterexample: for the job record with neither a `url` field
nor a document, the consumer does not dispatch and logs the no-target
warning, but — contrary to the claim — no error entry keyed by the job
identifier is recorded (`errorEntry = none`): the outcome is only a log
line. -/
theorem C1_no_target_counterexample :
    (processClaimedJob envBase true tmpPathId "u1" (some "q1") emptyRecord storeA).dispatchedUrl
        = none ∧
    (processClaimedJob envBase true tmpPathId "u1" (some "q1") emptyRecord storeA).warnedNoTarget
        = true ∧
    (processClaimedJob envBase true tmpPathId "u1" (some "q1") emptyRecord storeA).errorEntry
        = none := by
  exact ⟨rfl, rfl, rfl⟩

/-- Claim C1 (amended): for every claimed job whose record has no truthy
`document` and no truthy `url`, the consumer never invokes the capture
dispatcher nor the third-party hook, logs the `no URL provided` warning, no
exception escapes, and the cleanup pipeline still runs — but no error entry
keyed by the job identifier is recorded. -/
theorem C1_no_target_amended (env : Env) (dp : Bool) (tmpPath : String → String)
    (uuid : String) (queue : Option String) (r : JobRecord) (s : Store)
    (hd : truthyOpt r.document = false) (hu : truthyOpt r.url = false) :
    (processClaimedJob env dp tmpPath uuid queue r s).dispatchedUrl = none ∧
    (processClaimedJob env dp tmpPath uuid queue r s).thirdpartyUrl = none ∧
    (processClaimedJob env dp tmpPath uuid queue r s).warnedNoTarget = true ∧
    (processClaimedJob env dp tmpPath uuid queue r s).errorEntry = none ∧
    (processClaimedJob env dp tmpPath uuid queue r s).raised = none ∧
    (processClaimedJob env dp tmpPath uuid queue r s).cleanupRan = true ∧
    (processClaimedJob env dp tmpPath uuid queue r s).finalStore
        = lazyCleanup s uuid queue := by
  simp [processClaimedJob, hd, hu]

/-- Claim C1, witness: the amended theorem applied to a concrete record with
neither target field. -/
theorem C1_no_target_witness :
    (processClaimedJob envGuard false tmpPathId "u2" (some "q2") emptyRecord storeA).dispatchedUrl
        = none ∧
    (processClaimedJob envGuard false tmpPathId "u2" (some "q2") emptyRecord storeA).thirdpartyUrl
        = none ∧
    (processClaimedJob envGuard false tmpPathId "u2" (some "q2") emptyRecord storeA).warnedNoTarget
        = true ∧
    (processClaimedJob envGuard false tmpPathId "u2" (some "q2") emptyRecord storeA).errorEntry
        = none ∧
    (processClaimedJob envGuard false tmpPathId "u2" (some "q2") emptyRecord storeA).raised
        = none ∧
    (processClaimedJob envGuard false tmpPathId "u2" (some "q2") emptyRecord storeA).cleanupRan
        = true ∧
    (processClaimedJob envGuard false tmpPathId "u2" (some "q2") emptyRecord storeA).finalStore
        = lazyCleanup storeA "u2" (some "q2") :=
  C1_no_target_amended envGuard false tmpPathId "u2" (some "q2") emptyRecord storeA rfl rfl

/-! ## Claim C2 -/

/-- Claim C2 (code-bug evaluation): for a dispatched job whose backend call
succeeds with a non-empty bundle carrying neither a `har` key nor an `error`
key, `_capture` does not return `(False, message)` — the `KeyError` raised
at line 248 of `bin/async_capture.py` (reading the error key outside the
`try` block) escapes the dispatcher, contradicting the claim that no
exception ever propagates out of `_capture`. -/
theorem C2_keyerror_escape :
    (pyCapture envBug { perma_uuid := "u1" } "http://example.com").1
        = Except.error "KeyError" ∧
    bundlePngOnly.isEmpty = false ∧
    bundlePngOnly.har = none ∧
    bundlePngOnly.error = none ∧
    (processClaimedJob envBug false tmpPathId "u1" (some "q1")
        { url := some "http://example.com" } storeA).raised = some "KeyError" := by
  exact ⟨rfl, rfl, rfl, rfl, rfl⟩

/-! ## Claim C9 -/

/-- Claim C9, counterexample: re-running cleanup for the same identifier
*does* double-decrement the bucket counter when its score is still non-zero:
from a bucket score of 2, the first run leaves 1 and the second run
decrements again to 0. -/
theorem C9_cleanup_counterexample :
    (lazyCleanup storeA "u1" (some "q1")).queues "q1" = some 1 ∧
    (lazyCleanup (lazyCleanup storeA "u1" (some "q1")) "u1" (some "q1")).queues "q1"
        = some 0 := by
  exact ⟨rfl, rfl⟩

/-- Claim C9 (amended): cleanup decrements the named bucket only when the
token is truthy and the bucket exists with a non-zero score, removes the
identifier from `ongoing`, deletes the job record, and refreshes the
600-second expiry; the existence/non-zero guard means a bucket that is
absent or already at zero is never decremented — so a re-run after the
counter reached zero does not decrement further — but a re-run while the
score is still non-zero does decrement again. -/
theorem C9_cleanup_amended (s : Store) (uuid : String) (queue : Option String) :
    (lazyCleanup s uuid queue).ongoing = s.ongoing.filter (fun x => x != uuid) ∧
    (lazyCleanup s uuid queue).records = s.records.filter (fun x => x != uuid) ∧
    (lazyCleanup s uuid queue).queuesExpiry = some 600 ∧
    (∀ q, queue = some q → q ≠ "" → zscoreTruthy s q = true →
      (lazyCleanup s uuid queue).queues q = some ((s.queues q).getD 0 - 1)) ∧
    (∀ q, s.queues q = none ∨ s.queues q = some 0 →
      (lazyCleanup s uuid queue).queues q = s.queues q) ∧
    (∀ q, (lazyCleanup s uuid queue).queues q = some 0 →
      (lazyCleanup (lazyCleanup s uuid queue) uuid queue).queues q
        = (lazyCleanup s uuid queue).queues q) := by
  have hzero : ∀ (s1 : Store) q, s1.queues q = none ∨ s1.queues q = some 0 →
      (lazyCleanup s1 uuid queue).queues q = s1.queues q := by
    intro s1 q hq
    unfold lazyCleanup
    cases queue with
    | none => rfl
    | some q2 =>
      by_cases hg : (q2 != "" && zscoreTruthy s1 q2) = true
      · simp only [hg, if_true, ite_true]
        by_cases hqq : q = q2
        · subst hqq
          rcases hq with hq | hq <;> simp [zscoreTruthy, hq] at hg
        · simp [zincrby, hqq]
      · simp [hg]
  refine ⟨?_, ?_, ?_, ?_, ?_, ?_⟩
  · unfold lazyCleanup
    cases queue with
    | none => rfl
    | some q2 =>
      by_cases hg : (q2 != "" && zscoreTruthy s q2) = true <;> simp [hg]
  · unfold lazyCleanup
    cases queue with
    | none => rfl
    | some q2 =>
      by_cases hg : (q2 != "" && zscoreTruthy s q2) = true <;> simp [hg]
  · unfold lazyCleanup
    cases queue with
    | none => rfl
    | some q2 =>
      by_cases hg : (q2 != "" && zscoreTruthy s q2) = true <;> simp [hg]
  · intro q hq hne htr
    subst hq
    unfold lazyCleanup
    have hg : (q != "" && zscoreTruthy s q) = true := by
      simp [htr, bne_iff_ne, hne]
    simp only [hg, if_true, ite_true]
    simp [zincrby]
    omega
  · intro q hq
    exact hzero s q hq
  · intro q hq
    rw [hzero (lazyCleanup s uuid queue) q (Or.inr hq)]

/-- Claim C9, witness: the amended theorem applied to the concrete store. -/
theorem C9_cleanup_witness :
    (lazyCleanup storeA "u1" (some "q1")).ongoing = [] ∧
    (lazyCleanup storeA "u1" (some "q1")).queuesExpiry = some 600 ∧
    (lazyCleanup storeA "u1" (some "q1")).queues "q1" = some 1 := by
  have h := C9_cleanup_amended storeA "u1" (some "q1")
  refine ⟨?_, h.2.2.1, ?_⟩
  · rw [h.1]
    rfl
  · have hd := h.2.2.2.1 "q1" rfl (by decide) (by rfl)
    rw [hd]
    rfl

/-! ## Claim C6 -/

/-- Closed form of the three-attempt status probe. -/
theorem probe3_eval (u : Nat → Bool) :
    probe u 1 3 =
      if u 1 then
        if u 2 then
          if u 3 then { calls := 3, sleeps := [3, 3, 3], stillUnknown := true }
          else { calls := 3, sleeps := [3, 3], stillUnknown := false }
        else { calls := 2, sleeps := [3], stillUnknown := false }
      else { calls := 1, sleeps := [], stillUnknown := false } := by
  by_cases h1 : u 1 <;> by_cases h2 : u 2 <;> by_cases h3 : u 3 <;>
    simp [probe, h1, h2, h3]

/-- Claim C6 (confirmed): a pending job with no `not_queued` flag whose
backend status is initially unknown is re-queried at most 3 times, every
sleep between attempts lasts 3 time units; if any re-query finds a known
status the job is left alone (no resubmission, flag untouched); if all 3
re-queries still find it unknown, the stored parameters are resubmitted to
the backend with the original identifier, and a successful resubmission
clears the flag. -/
theorem C6_reconciliation_retries (e : ReconEnv) (uuid : String)
    (hflag : e.notQueuedFlag = false) (h0 : e.unknownAt 0 = true) :
    ((retryFailedEnqueueOne e uuid).statusCalls ≤ 4 ∧
      (retryFailedEnqueueOne e uuid).sleeps.all (fun t => t == 3) = true) ∧
    (¬(e.unknownAt 1 = true ∧ e.unknownAt 2 = true ∧ e.unknownAt 3 = true) →
      (retryFailedEnqueueOne e uuid).enqueueCall = none ∧
      (retryFailedEnqueueOne e uuid).flagCleared = false) ∧
    ((e.unknownAt 1 = true ∧ e.unknownAt 2 = true ∧ e.unknownAt 3 = true) →
      (retryFailedEnqueueOne e uuid).statusCalls = 4 ∧
      (retryFailedEnqueueOne e uuid).sleeps = [3, 3, 3] ∧
      (retryFailedEnqueueOne e uuid).enqueueCall = some (e.record, uuid) ∧
      (∀ nu, e.enqueueResult = some nu →
        (retryFailedEnqueueOne e uuid).flagCleared = true)) := by
  have hp := probe3_eval e.unknownAt
  by_cases h1 : e.unknownAt 1 <;> by_cases h2 : e.unknownAt 2 <;> by_cases h3 : e.unknownAt 3
  all_goals
    simp only [h1, h2, h3, if_true, if_false, ite_true, ite_false] at hp
  all_goals
    cases he : e.enqueueResult <;>
      simp [retryFailedEnqueueOne, hflag, h0, h1, h2, h3, hp, he]

/-- Claim C6, witness: the theorem applied to an environment whose status
stays unknown through all retries and whose enqueue succeeds. -/
theorem C6_reconciliation_witness :
    (retryFailedEnqueueOne reconAllUnknown "u1").statusCalls = 4 ∧
    (retryFailedEnqueueOne reconAllUnknown "u1").sleeps = [3, 3, 3] ∧
    (retryFailedEnqueueOne reconAllUnknown "u1").enqueueCall
        = some (reconAllUnknown.record, "u1") ∧
    (retryFailedEnqueueOne reconAllUnknown "u1").flagCleared = true := by
  have h := (C6_reconciliation_retries reconAllUnknown "u1" rfl rfl).2.2 ⟨rfl, rfl, rfl⟩
  exact ⟨h.1, h.2.1, h.2.2.1, h.2.2.2 "u1" rfl⟩

/-! ## Claim C8 -/

/-- A name starting with `firefox` does not start with `chrom`. -/
theorem chrom_firefox_disjoint (l : List Char)
    (h : lcStartsWith l "firefox".data = true) : lcStartsWith l "chrom".data = false := by
  have hf : "firefox".data = ['f', 'i', 'r', 'e', 'f', 'o', 'x'] := rfl
  have hc : "chrom".data = ['c', 'h', 'r', 'o', 'm'] := rfl
  rw [hf] at h
  rw [hc]
  cases l with
  | nil => simp [lcStartsWith] at h
  | cons c cs =>
    simp [lcStartsWith] at h ⊢
    intro hcc
    rw [hcc] at h
    simp at h

/-- Claim C8, counterexample: the target `database.example` has no
recognised scheme and is not a data/file URL, yet the dispatcher does not
prefix it with `http://` (the source only tests the literal prefixes `data`,
`http`, `file`), so the claim's "exactly when" characterisation fails. -/
theorem C8_normalize_counterexample :
    hasUrlScheme "database.example" = false ∧
    strStartsWith "database.example" "data:" = false ∧
    strStartsWith "database.example" "file:" = false ∧
    normalizeUrl envBase "database.example" = "database.example" ∧
    normalizeUrl envBase "database.example" ≠ "http://" ++ "database.example" := by
  exact ⟨rfl, rfl, rfl, rfl, by decide⟩

/-- Claim C8 (amended): the dispatcher trims whitespace, refangs, and
prefixes `http://` exactly when the trimmed and refanged result starts with
none of the literal strings `data`, `http`, `file`; and when no explicit
engine is given, the engine derived from the user-agent is `chromium` for a
browser name starting (case-insensitively) with `chrom`, `firefox` for one
starting with `firefox`, and the `webkit` fallback for any other or
unparseable agent. -/
theorem C8_normalize_engine_amended (env : Env) (u0 : String)
    (pb : String → Option String) (ua : String) :
    ((strStartsWith (env.refang (stripStr u0)) "data" = false ∧
      strStartsWith (env.refang (stripStr u0)) "http" = false ∧
      strStartsWith (env.refang (stripStr u0)) "file" = false) →
        normalizeUrl env u0 = "http://" ++ env.refang (stripStr u0)) ∧
    ((strStartsWith (env.refang (stripStr u0)) "data" = true ∨
      strStartsWith (env.refang (stripStr u0)) "http" = true ∨
      strStartsWith (env.refang (stripStr u0)) "file" = true) →
        normalizeUrl env u0 = env.refang (stripStr u0)) ∧
    (pb ua = none → pickEngine pb ua = "webkit") ∧
    (pb ua = some "" → pickEngine pb ua = "webkit") ∧
    (∀ b, pb ua = some b → strStartsWith (lowerStr b) "chrom" = true →
      pickEngine pb ua = "chromium") ∧
    (∀ b, pb ua = some b → strStartsWith (lowerStr b) "firefox" = true →
      pickEngine pb ua = "firefox") ∧
    (∀ b, pb ua = some b → b ≠ "" → strStartsWith (lowerStr b) "chrom" = false →
      strStartsWith (lowerStr b) "firefox" = false → pickEngine pb ua = "webkit") := by
  refine ⟨?_, ?_, ?_, ?_, ?_, ?_, ?_⟩
  · intro ⟨ha, hb, hc⟩
    simp [normalizeUrl, ha, hb, hc]
  · intro h
    rcases h with h | h | h <;> simp [normalizeUrl, h]
  · intro h
    simp [pickEngine, h]
  · intro h
    simp [pickEngine, h]
  · intro b hpb hch
    by_cases hb : b = ""
    · rw [hb] at hch
      exact absurd hch (by decide)
    · simp [pickEngine, hpb, hb, hch]
  · intro b hpb hff
    by_cases hb : b = ""
    · rw [hb] at hff
      exact absurd hff (by decide)
    · have hch : lcStartsWith (lowerStr b).data "chrom".data = false :=
        chrom_firefox_disjoint (lowerStr b).data hff
      simp [pickEngine, hpb, hb, hff, strStartsWith, hch]
      exact hff
  · intro b hpb hb hch hff
    simp [pickEngine, hpb, hb, hch, hff]

/-- Claim C8, witness: the amended theorem applied to a scheme-less target
(which gets the `http://` prefix) and a Chrome-reporting user-agent parser
(which selects the chromium engine). -/
theorem C8_normalize_engine_witness :
    normalizeUrl envBase "example.com" = "http://" ++ envBase.refang (stripStr "example.com") ∧
    pickEngine envBase.parse_browser "ua" = "chromium" :=
  ⟨(C8_normalize_engine_amended envBase "example.com" envBase.parse_browser "ua").1
      ⟨rfl, rfl, rfl⟩,
   (C8_normalize_engine_amended envBase "example.com" envBase.parse_browser "ua").2.2.2.2.1
      "Chrome" rfl rfl⟩

/-! ## Claim C4 -/

/-- Claim C4, counterexample: with the global-lookup restriction enabled,
the target `filexample.com` is not a data/file URL (it has no scheme at
all) and has no host component, yet the guard denies nothing: the literal
`startswith(file)` test skips validation, a backend session is opened and
the capture succeeds. -/
theorem C4_ssrf_guard_counterexample :
    envGuard.only_global_lookups = true ∧
    hasUrlScheme "filexample.com" = false ∧
    strStartsWith "filexample.com" "data:" = false ∧
    strStartsWith "filexample.com" "file:" = false ∧
    (urlsplit (normalizeUrl envGuard "filexample.com")).hostname = none ∧
    (urlsplit (normalizeUrl envGuard "filexample.com")).netloc = "" ∧
    hasSession (pyCapture envGuard { perma_uuid := "u1" } "filexample.com").2 = true ∧
    (pyCapture envGuard { perma_uuid := "u1" } "filexample.com").1
        = Except.ok (true, "All good!") := by
  exact ⟨rfl, rfl, rfl, rfl, rfl, rfl, rfl, rfl⟩

/-- Claim C4 (amended): with the global-lookup restriction enabled, for
every URL whose normalised form starts with neither of the literal strings
`data` and `file`: an empty network-location is denied with the no-hostname
message; and when a hostname is present whose last label is not `onion`, a
name-resolution failure is denied with `Name or service not known.` and a
resolved address that is not globally routable is denied with the
private-IPs message — each denial returning before any backend session is
opened. (A non-empty netloc without a parseable hostname passes the guard,
and a URL merely starting with `data`/`file` skips it, cf. the
counterexample.) -/
theorem C4_ssrf_guard_amended (env : Env) (p : CaptureParams) (url : String)
    (hg : env.only_global_lookups = true)
    (hd : strStartsWith (normalizeUrl env url) "data" = false)
    (hf : strStartsWith (normalizeUrl env url) "file" = false) :
    ((urlsplit (normalizeUrl env url)).netloc = "" →
      (pyCapture env p url).1
          = Except.ok (false, "Unable to find hostname or IP in the query.") ∧
      hasSession (pyCapture env p url).2 = false) ∧
    (∀ h, (urlsplit (normalizeUrl env url)).hostname = some h →
      lastLabelS h ≠ "onion" →
      ((env.resolve h = none →
        (pyCapture env p url).1 = Except.ok (false, "Name or service not known.") ∧
        hasSession (pyCapture env p url).2 = false) ∧
      (∀ ip, env.resolve h = some ip → ip.is_global = false →
        (pyCapture env p url).1
            = Except.ok (false, "Capturing ressources on private IPs is disabled.") ∧
        hasSession (pyCapture env p url).2 = false))) := by
  constructor
  · intro hnet
    have hgu : ssrfGuard env (normalizeUrl env url) (urlsplit (normalizeUrl env url))
        = (some "Unable to find hostname or IP in the query.", []) := by
      unfold ssrfGuard
      simp [hg, hd, hf, hnet]
    simp [pyCapture, hgu, hasSession]
  · intro h hh ho
    have hne := urlsplit_netloc_ne _ h hh
    constructor
    · intro hr
      have hgu : ssrfGuard env (normalizeUrl env url) (urlsplit (normalizeUrl env url))
          = (some "Name or service not known.", [Event.resolveHost h]) := by
        unfold ssrfGuard
        simp [hg, hd, hf, hne, hh, ho, hr]
      simp [pyCapture, hgu, hasSession]
    · intro ip hr hip
      have hgu : ssrfGuard env (normalizeUrl env url) (urlsplit (normalizeUrl env url))
          = (some "Capturing ressources on private IPs is disabled.",
             [Event.resolveHost h]) := by
        unfold ssrfGuard
        simp [hg, hd, hf, hne, hh, ho, hr, hip]
      simp [pyCapture, hgu, hasSession]

/-- Claim C4, witness: the amended theorem applied to a restricted
environment with failing DNS, then to one resolving to a private address. -/
theorem C4_ssrf_guard_witness :
    ((pyCapture envNoDns { perma_uuid := "u1" } "http://x.example/").1
        = Except.ok (false, "Name or service not known.") ∧
      hasSession (pyCapture envNoDns { perma_uuid := "u1" } "http://x.example/").2 = false) ∧
    ((pyCapture envPrivate { perma_uuid := "u1" } "http://x.example/").1
        = Except.ok (false, "Capturing ressources on private IPs is disabled.") ∧
      hasSession (pyCapture envPrivate { perma_uuid := "u1" } "http://x.example/").2
        = false) :=
  ⟨((C4_ssrf_guard_amended envNoDns { perma_uuid := "u1" } "http://x.example/"
        rfl rfl rfl).2 "x.example" rfl (by decide)).1 rfl,
   ((C4_ssrf_guard_amended envPrivate { perma_uuid := "u1" } "http://x.example/"
        rfl rfl rfl).2 "x.example" rfl (by decide)).2 ipPrivate rfl rfl⟩

/-! ## Claim C5 -/

/-- Claim C5 (confirmed): for every target whose hostname's last
dot-separated label is `onion`, the guard performs no name resolution at
all, and when the job supplied no proxy the configured tor proxy is forced
onto the backend session. -/
theorem C5_onion_exemption (env : Env) (p : CaptureParams) (url : String) (h : String)
    (hh : (urlsplit (normalizeUrl env url)).hostname = some h)
    (ho : lastLabelS h = "onion") :
    didResolve (pyCapture env p url).2 = false ∧
    (p.proxy = none →
      sessionProxy (pyCapture env p url).2 = some (some env.tor_proxy)) := by
  have hne := urlsplit_netloc_ne _ h hh
  have hgu : ssrfGuard env (normalizeUrl env url) (urlsplit (normalizeUrl env url))
      = (none, []) := by
    unfold ssrfGuard
    by_cases hool : env.only_global_lookups
    · by_cases hdf : (strStartsWith (normalizeUrl env url) "data"
          || strStartsWith (normalizeUrl env url) "file") = true
      · simp [hool, hdf]
      · simp at hdf
        simp [hool, hdf, hne, hh, ho]
    · simp [hool]
  constructor
  · simp only [pyCapture, hgu]
    cases hb : env.backend with
    | pcexc => simp [didResolve]
    | exc => simp [didResolve]
    | ok entries =>
      by_cases hemp : entries.isEmpty = true
      · simp [hemp, didResolve]
      · have hpr := persist_no_resolve p entries
        simp only [didResolve, List.any_append] at hpr ⊢
        simp [hemp, hpr, didResolve]
  · intro hp
    have hproxy : (if !truthyOpt p.proxy
          && (urlsplit (normalizeUrl env url)).netloc != ""
          && (match (urlsplit (normalizeUrl env url)).hostname with
              | some h1 => lastLabelS h1 = "onion"
              | none => false) then
            some env.tor_proxy
          else p.proxy) = some env.tor_proxy := by
      simp [hp, truthyOpt, hh, ho, bne_iff_ne, hne]
    simp only [pyCapture, hgu, hproxy]
    cases hb : env.backend with
    | pcexc => simp [sessionProxy]
    | exc => simp [sessionProxy]
    | ok entries =>
      by_cases hemp : entries.isEmpty = true
      · simp [hemp, sessionProxy]
      · simp [hemp, sessionProxy]

/-- Claim C5, witness: the theorem applied to an onion target in an
environment whose DNS would fail were it consulted; no resolution happens
and the tor proxy is forced. -/
theorem C5_onion_witness :
    didResolve (pyCapture envOnion { perma_uuid := "u1" } "http://hidden.onion/").2
        = false ∧
    sessionProxy (pyCapture envOnion { perma_uuid := "u1" } "http://hidden.onion/").2
        = some (some envOnion.tor_proxy) :=
  ⟨(C5_onion_exemption envOnion { perma_uuid := "u1" } "http://hidden.onion/"
      "hidden.onion" rfl rfl).1,
   (C5_onion_exemption envOnion { perma_uuid := "u1" } "http://hidden.onion/"
      "hidden.onion" rfl rfl).2 rfl⟩

/-! ## Claim C3 -/

/-- Claim C3, counterexample: a non-empty bundle carrying a downloaded file
(and an error text) but no HAR is returned by a successful backend call,
and — contrary to the claim, which says such a bundle is not failed — the
dispatcher reports failure. -/
theorem C3_bundle_failure_counterexample :
    bundleDownloadNoHar.isEmpty = false ∧
    truthyOpt bundleDownloadNoHar.downloaded_file = true ∧
    bundleDownloadNoHar.har = none ∧
    (pyCapture envDl { perma_uuid := "u1" } "http://example.com").1
        = Except.ok (false, "no rendering") := by
  exact ⟨rfl, rfl, rfl, rfl⟩

/-- Claim C3 (amended): past the SSRF guard, a bundle returned by a
successful backend call yields a successful capture precisely when it is
non-empty and contains a HAR document; an empty bundle is a hard failure
with the generic message; and a bundle without a HAR — whether or not it
carries a downloaded file — never yields success. -/
theorem C3_bundle_failure_amended (env : Env) (p : CaptureParams) (url : String)
    (entries : Bundle) (hb : env.backend = BackendResult.ok entries)
    (hgp : (ssrfGuard env (normalizeUrl env url) (urlsplit (normalizeUrl env url))).1
        = none) :
    ((pyCapture env p url).1 = Except.ok (true, "All good!")
        ↔ (entries.isEmpty = false ∧ entries.har.isSome = true)) ∧
    (entries.isEmpty = true →
      (pyCapture env p url).1
        = Except.ok (false, "Something went terribly wrong when capturing "
            ++ normalizeUrl env url ++ ".")) ∧
    (entries.har = none → ∀ m, (pyCapture env p url).1 ≠ Except.ok (true, m)) := by
  rcases hgu : ssrfGuard env (normalizeUrl env url) (urlsplit (normalizeUrl env url))
    with ⟨g, evs⟩
  rw [hgu] at hgp
  simp at hgp
  subst hgp
  refine ⟨?_, ?_, ?_⟩
  · by_cases hemp : entries.isEmpty = true
    · simp [pyCapture, hgu, hb, hemp]
    · cases hhar : entries.har with
      | none =>
        have hnh := persist_no_har p entries hhar "All good!"
        simp [pyCapture, hgu, hb, hemp, hhar, hnh]
      | some v =>
        have hs := persist_success p entries v hhar
        simp [pyCapture, hgu, hb, hemp, hhar, hs]
  · intro hemp
    simp [pyCapture, hgu, hb, hemp]
  · intro hhar m
    by_cases hemp : entries.isEmpty = true
    · simp [pyCapture, hgu, hb, hemp]
    · have hnh := persist_no_har p entries hhar m
      simp [pyCapture, hgu, hb, hemp, hnh]

/-- Claim C3, witness: the amended theorem applied to the backend returning
the downloaded-file bundle: the success criterion evaluates to false. -/
theorem C3_bundle_failure_witness :
    (pyCapture envDl { perma_uuid := "u1" } "http://example.com").1
        = Except.ok (true, "All good!")
      ↔ (bundleDownloadNoHar.isEmpty = false ∧ bundleDownloadNoHar.har.isSome = true) :=
  (C3_bundle_failure_amended envDl { perma_uuid := "u1" } "http://example.com"
    bundleDownloadNoHar rfl rfl).1

/-! ## Claim C7 -/

/-- The claim-side unlisted condition agrees with the negation of the
source's listing flag. -/
theorem unlisted_iff (dp : Bool) (l : Option String) :
    (unlistedPerClaim dp l = true) ↔ (computeListing dp l = false) := by
  cases dp with
  | false =>
    cases l with
    | none => simp [unlistedPerClaim, computeListing, listedPrivateDefault]
    | some v =>
      cases ht : listingTruthy v <;>
        simp [unlistedPerClaim, computeListing, listedPrivateDefault, ht]
  | true =>
    cases l with
    | none => simp [unlistedPerClaim, computeListing, listedPublicDefault]
    | some v =>
      cases hf : listingFalsy v <;>
        simp [unlistedPerClaim, computeListing, listedPublicDefault, hf]

/-- A successful `_capture` writes the `no_index` marker iff the listing
flag is off. -/
theorem pyCapture_success_noindex (env : Env) (p : CaptureParams) (url : String)
    (m : String) (h : (pyCapture env p url).1 = Except.ok (true, m)) :
    ((Event.writeFile ArtifactFile.no_index ∈ (pyCapture env p url).2)
      ↔ p.listing = false) := by
  rcases hgu : ssrfGuard env (normalizeUrl env url) (urlsplit (normalizeUrl env url))
    with ⟨g, evs⟩
  cases g with
  | some msg => simp [pyCapture, hgu] at h
  | none =>
    cases hb : env.backend with
    | pcexc => simp [pyCapture, hgu, hb] at h
    | exc => simp [pyCapture, hgu, hb] at h
    | ok entries =>
      by_cases hemp : entries.isEmpty = true
      · simp [pyCapture, hgu, hb, hemp] at h
      · cases hhar : entries.har with
        | none =>
          simp [pyCapture, hgu, hb, hemp] at h
          exact absurd h (persist_no_har p entries hhar m)
        | some v =>
          have hevs : evs = [] ∨ ∃ h1, evs = [Event.resolveHost h1] := by
            rcases ssrfGuard_events env (normalizeUrl env url)
                (urlsplit (normalizeUrl env url)) with hev | ⟨h1, hev⟩ <;>
              rw [hgu] at hev <;> simp at hev
            · exact Or.inl hev
            · exact Or.inr ⟨h1, hev⟩
          rcases hevs with hev | ⟨h1, hev⟩ <;> subst hev <;>
            simp [pyCapture, hgu, hb, hemp, List.mem_append, persist_noindex]

/-- Claim C7 (confirmed): for every claimed job whose capture returned
success, the persisted directory contains the `no_index` marker iff the job
is unlisted in exactly the sense of the claim: under the public-by-default
policy a `listing` field present with case-insensitive value `false`, `0` or
empty; under the private-by-default policy the field absent or its value
neither `true` nor `1` — an absent field falling back to the policy
default. -/
theorem C7_no_index_marker (env : Env) (dp : Bool) (tmpPath : String → String)
    (uuid : String) (queue : Option String) (r : JobRecord) (s : Store) (m : String)
    (h : (processClaimedJob env dp tmpPath uuid queue r s).captureResult
          = some (Except.ok (true, m))) :
    ((Event.writeFile ArtifactFile.no_index
        ∈ (processClaimedJob env dp tmpPath uuid queue r s).captureTrace)
      ↔ unlistedPerClaim dp r.listing = true) := by
  have hUnl := unlisted_iff dp r.listing
  by_cases hd : truthyOpt r.document = true
  · cases hdn : r.document_name with
    | none => simp [processClaimedJob, hd, hdn] at h
    | some dn =>
      simp only [processClaimedJob, hd, hdn, if_true, ite_true, runDispatch] at h ⊢
      have hf := dispatchOutcome_fields uuid queue s ("file://" ++ tmpPath (pathName dn))
        none true (pyCapture env (mkParams uuid dp r) ("file://" ++ tmpPath (pathName dn)))
      rw [hf.2.2.2] at h
      simp only [Option.some.injEq] at h
      rw [hf.2.2.1]
      rw [pyCapture_success_noindex env (mkParams uuid dp r) _ m h]
      simp only [mkParams]
      exact hUnl.symm
  · by_cases hu : truthyOpt r.url = true
    · simp only [processClaimedJob, hd, hu, if_true, ite_true, if_false, ite_false,
        Bool.false_eq_true, runDispatch] at h ⊢
      have hf := dispatchOutcome_fields uuid queue s (r.url.getD "")
        (some (r.url.getD "")) false (pyCapture env (mkParams uuid dp r) (r.url.getD ""))
      rw [hf.2.2.2] at h
      simp only [Option.some.injEq] at h
      rw [hf.2.2.1]
      rw [pyCapture_success_noindex env (mkParams uuid dp r) _ m h]
      simp only [mkParams]
      exact hUnl.symm
    · simp [processClaimedJob, hd, hu] at h

/-- Claim C7, witness: the theorem applied to a concrete job submitted with
`listing=false` under the public-by-default policy: the marker is written. -/
theorem C7_no_index_witness :
    (Event.writeFile ArtifactFile.no_index
        ∈ (processClaimedJob envBase true tmpPathId "u1" (some "q1")
            listingFalseRecord storeA).captureTrace)
      ↔ unlistedPerClaim true listingFalseRecord.listing = true :=
  C7_no_index_marker envBase true tmpPathId "u1" (some "q1") listingFalseRecord storeA
    "All good!" rfl

/-! ## Claim C10 -/

/-- Claim C10 (confirmed): when the record carries a truthy inline document
(with its `document_name`, which the data model pairs with it) and a `url`
field, the inline document wins: the dispatcher is invoked on the temporary
`file://` path, the third-party hook is not triggered, and the whole outcome
is unchanged if the `url` field is replaced by anything else. -/
theorem C10_document_precedence (env : Env) (dp : Bool) (tmpPath : String → String)
    (uuid : String) (queue : Option String) (r : JobRecord) (s : Store) (dn : String)
    (hd : truthyOpt r.document = true) (hdn : r.document_name = some dn)
    (hu : r.url.isSome = true) :
    (processClaimedJob env dp tmpPath uuid queue r s).dispatchedUrl
        = some ("file://" ++ tmpPath (pathName dn)) ∧
    (processClaimedJob env dp tmpPath uuid queue r s).thirdpartyUrl = none ∧
    (∀ u2, processClaimedJob env dp tmpPath uuid queue { r with url := u2 } s
        = processClaimedJob env dp tmpPath uuid queue r s) := by
  refine ⟨?_, ?_, ?_⟩
  · simp only [processClaimedJob, hd, hdn, if_true, ite_true, runDispatch]
    exact (dispatchOutcome_fields _ _ _ _ _ _ _).1
  · simp only [processClaimedJob, hd, hdn, if_true, ite_true, runDispatch]
    exact (dispatchOutcome_fields _ _ _ _ _ _ _).2.1
  · intro u2
    simp [processClaimedJob, hd, hdn, runDispatch, mkParams]

/-- Claim C10, witness: the theorem applied to the concrete record carrying
both a document and a URL. -/
theorem C10_document_precedence_witness :
    (processClaimedJob envBase true tmpPathId "u1" (some "q1") docRecord storeA).dispatchedUrl
        = some ("file://" ++ tmpPathId (pathName "page.html")) ∧
    (processClaimedJob envBase true tmpPathId "u1" (some "q1") docRecord storeA).thirdpartyUrl
        = none :=
  ⟨(C10_document_precedence envBase true tmpPathId "u1" (some "q1") docRecord storeA
      "page.html" rfl rfl rfl).1,
   (C10_document_precedence envBase true tmpPathId "u1" (some "q1") docRecord storeA
      "page.html" rfl rfl rfl).2.1⟩

end Lookyloo
